import Mathlib

/-!
# Verification of the Render-Basement music-licensing backend core

Shallow embedding of the track-ingestion pipeline (metadata extraction and
preview derivation), the pricing calculator, the purchase state machine
(payment-intent creation, purchase confirmation, download-quota enforcement)
and the license-certificate issuance path, translated from
`apps/tracks/models.py`, `apps/tracks/views.py` and
`apps/tracks/utils/license_generator.py`.

Modelling conventions:
- Database rows are records in lists inside a `DB` record; Django ORM
  lookups (`objects.get`, `objects.filter(...).exists()`, `get_object_or_404`)
  become `List.find?` and `List.any` over those lists.
- Decimal values (`base_price`, `price_multiplier`, `price_paid`) are `Rat`;
  Python `Decimal` arithmetic at these scales is exact, as is `Rat`.
- An audio file is a list of millisecond frames (`List Int`); `pydub`
  slicing `audio[a:b]` is `(List.drop a).take (b - a)` with the same
  clamping semantics.
- Files on disk are tracked with presence booleans; exceptions that the
  views catch are explicit error constructors of response types.
- The external Stripe collaborator is a read-only list of `PaymentIntent`
  records handed to the operations that consult it.
- Fields the claims never observe (cover image, tags, timestamps managed by
  the framework, the human user table) are omitted.
-/

namespace RiffRent

/-- `LicenseType` row of `apps/tracks/models.py` (reference data). -/
structure LicenseType where
  name : String
  displayName : String
  priceMultiplier : Rat
  allowsCommercialUse : Bool
  allowsModification : Bool
  requiresAttribution : Bool
  maxCopies : Option Nat
  isActive : Bool
deriving DecidableEq

/-- `Track` row of `apps/tracks/models.py`.  `previewData` carries the decoded
content of the generated preview clip so that the preview contract can be
stated; `audioFilePresent` / `previewFilePresent` say that the field is set
and the file exists on disk. -/
structure Track where
  publicId : Nat
  artist : Nat
  title : String
  audioFilePresent : Bool
  previewFilePresent : Bool
  previewData : Option (List Int)
  duration : Option Nat
  fileSize : Option Nat
  bitrate : Option Nat
  sampleRate : Option Nat
  basePrice : Rat
  status : String
  playCount : Nat
  downloadCount : Nat
  purchaseCount : Nat
deriving DecidableEq

/-- The data content of a rendered license certificate PDF
(`generate_license_certificate` in `license_generator.py`): everything the
document displays apart from layout, including the wall-clock
`generatedOn` stamp of its footer. -/
structure Certificate where
  certificateId : Nat
  issueDate : Nat
  licenseTypeDisplayName : String
  trackTitle : String
  buyerId : Nat
  pricePaid : Rat
  currency : String
  allowsCommercialUse : Bool
  allowsModification : Bool
  requiresAttribution : Bool
  maxCopies : Option Nat
  downloadsUsed : Nat
  downloadsRemaining : Nat
  generatedOn : Nat
deriving DecidableEq

/-- `Purchase` row of `apps/tracks/models.py`.  The `license_type` foreign key
is embedded as the referenced row (its `name` column is unique, so name
equality coincides with row identity); `track` stays a key into `DB.tracks`
because the download view reads the live track state.  `licenseFile` is the
cached certificate asset. -/
structure Purchase where
  publicId : Nat
  buyer : Nat
  track : Nat
  licenseType : LicenseType
  stripePaymentIntentId : String
  pricePaid : Rat
  currency : String
  paymentStatus : String
  licenseFile : Option Certificate
  downloadCount : Nat
  maxDownloads : Nat
  purchasedAt : Nat
deriving DecidableEq

/-- The relational store shared by all request handlers. -/
structure DB where
  tracks : List Track
  licenseTypes : List LicenseType
  purchases : List Purchase
deriving DecidableEq

/-- A payment-intent record held by the external Stripe collaborator:
`{id, status, amount, metadata{track_id, license_type, buyer_id}}`. -/
structure PaymentIntent where
  id : String
  status : String
  amount : Nat
  metaTrackId : Nat
  metaLicenseType : String
  metaBuyerId : Nat
  clientSecret : String
deriving DecidableEq

/-! ## Pricing calculator (`Track.get_license_price`) -/

/-- `Track.get_license_price`: look up the active license type by name and
multiply; on `LicenseType.DoesNotExist` fall back to the base price. -/
def getLicensePrice (db : DB) (t : Track) (licenseType : String) : Rat :=
  match db.licenseTypes.find? (fun l => l.name == licenseType && l.isActive) with
  | some licenseObj => t.basePrice * licenseObj.priceMultiplier
  | none => t.basePrice

/-- Modelled from the spec: "rounded to 2 decimal places" (nearest cent,
halves up) — the source itself applies no such rounding; this definition
exists only to compare the spec's words against `getLicensePrice`. -/
def specRoundTo2 (q : Rat) : Rat := (round (q * 100) : Int) / 100

/-! ## Preview derivation (`Track._generate_preview`) -/

/-- The slicing step of `Track._generate_preview`: durations are in
milliseconds, `preview_duration_ms = 30 * 1000`, and for long tracks the clip
is `audio[start_time : start_time + preview_duration_ms]` with
`start_time = duration_ms // 4`. -/
def previewClip (audio : List Int) : List Int :=
  let durationMs := audio.length
  let previewDurationMs := 30 * 1000
  if durationMs > previewDurationMs then
    let startTime := durationMs / 4
    (audio.drop startTime).take previewDurationMs
  else
    audio

/-- Result of the `try` blocks around `AudioSegment.from_file` /
`MutagenFile`: either decoding raises (corrupt file, unsupported codec), or
it yields the decoded frames, the file size, and whatever bitrate and sample
rate mutagen could report. -/
inductive DecodeOutcome where
  | decodeFailure
  | decoded (audio : List Int) (fileSize : Nat) (bitrate : Option Nat) (sampleRate : Option Nat)
deriving DecidableEq

/-- `Track._extract_audio_metadata`: on decode failure the exception is
caught and logged and no field changes; on success `duration` is
`int(len(audio) / 1000)` and `file_size`, `bitrate`, `sample_rate` are set. -/
def extractAudioMetadata (t : Track) (o : DecodeOutcome) : Track :=
  if !t.audioFilePresent then t
  else
    match o with
    | DecodeOutcome.decodeFailure => t
    | DecodeOutcome.decoded audio fsize br sr =>
        { t with
          duration := some (audio.length / 1000),
          fileSize := some fsize,
          bitrate := br,
          sampleRate := sr }

/-- `Track._generate_preview`: on decode failure the exception is caught and
logged and no field changes; on success the clip is exported and stored in
`preview_file`. -/
def generatePreview (t : Track) (o : DecodeOutcome) : Track :=
  if !t.audioFilePresent then t
  else
    match o with
    | DecodeOutcome.decodeFailure => t
    | DecodeOutcome.decoded audio _ _ _ =>
        { t with
          previewFilePresent := true,
          previewData := some (previewClip audio) }

/-- `Track.save`: extract metadata when the row is new or the audio file is
among the updated fields, persist, then generate the preview when the row is
new or no preview exists.  Decode failures are swallowed inside the two
helpers, so the save itself only ever returns `Except.ok`. -/
def trackSave (t : Track) (isNew : Bool) (audioInUpdateFields : Bool)
    (o : DecodeOutcome) : Except String Track :=
  let t1 := if isNew || audioInUpdateFields then extractAudioMetadata t o else t
  let t2 := if isNew || !t1.previewFilePresent then generatePreview t1 o else t1
  Except.ok t2

/-! ## Counters (`Track.increment_play_count`, `Track.increment_purchase_count`,
`Purchase.can_download`, `Purchase.increment_download_count`) -/

/-- `Track.increment_play_count` persisted through the store. -/
def incrementPlayCount (db : DB) (trackId : Nat) : DB :=
  { db with
    tracks := db.tracks.map fun t =>
      if t.publicId == trackId then { t with playCount := t.playCount + 1 } else t }

/-- `Track.increment_purchase_count` persisted through the store. -/
def incrementPurchaseCount (db : DB) (trackId : Nat) : DB :=
  { db with
    tracks := db.tracks.map fun t =>
      if t.publicId == trackId then { t with purchaseCount := t.purchaseCount + 1 } else t }

/-- `Purchase.can_download`. -/
def canDownload (p : Purchase) : Bool :=
  p.paymentStatus == "succeeded" && p.downloadCount < p.maxDownloads

/-- `Purchase.increment_download_count`: increments and reports `true` only
when `can_download` holds. -/
def incrementDownloadCount (p : Purchase) : Purchase × Bool :=
  if canDownload p then ({ p with downloadCount := p.downloadCount + 1 }, true)
  else (p, false)

/-- Persist an update of the purchase row identified by `pid`. -/
def updatePurchase (db : DB) (pid : Nat) (f : Purchase → Purchase) : DB :=
  { db with
    purchases := db.purchases.map fun q => if q.publicId == pid then f q else q }

/-! ## Payment-intent creation (`create_payment_intent` view) -/

/-- Python `int()` applied to a non-negative exact decimal truncates toward
zero; for negatives it would round toward zero as well. -/
def pyInt (q : Rat) : Int := if 0 ≤ q then ⌊q⌋ else ⌈q⌉

/-- Responses of the `create_payment_intent` view. -/
inductive IntentResponse where
  | ok (clientSecret : String) (amount : Rat) (trackTitle : String) (licenseType : String)
  | missingTrackId
  | trackNotFound (trackId : Nat)
  | alreadyOwned
deriving DecidableEq

/-- The `create_payment_intent` view.  It returns the store (unchanged on
every path: the view performs no ORM write), the amount in minor units
passed to `stripe.PaymentIntent.create` (`int(price * 100)`), when that call
happens, and the HTTP response.  `clientSecret` is the opaque token minted
by the collaborator for the created intent. -/
def createPaymentIntent (db : DB) (buyerId : Nat) (trackId : Option Nat)
    (licenseType : String) (clientSecret : String) : DB × Option Int × IntentResponse :=
  match trackId with
  | none => (db, none, IntentResponse.missingTrackId)
  | some tid =>
    match db.tracks.find? (fun t => t.publicId == tid && t.status == "approved") with
    | none => (db, none, IntentResponse.trackNotFound tid)
    | some track =>
      let existingPurchase := db.purchases.any fun p =>
        p.buyer == buyerId && p.track == track.publicId &&
        p.licenseType.name == licenseType && p.paymentStatus == "succeeded"
      if existingPurchase then (db, none, IntentResponse.alreadyOwned)
      else
        let price := getLicensePrice db track licenseType
        let amount := pyInt (price * 100)
        (db, some amount, IntentResponse.ok clientSecret price track.title licenseType)

/-! ## Purchase confirmation (`confirm_purchase` view) -/

/-- Responses of the `confirm_purchase` view: success, the explicit
"Payment was not successful" 400, or the generic 400 produced by the
`except` branch from any raised exception (`Http404`, `IntegrityError`). -/
inductive ConfirmResponse where
  | success (purchaseId : Nat)
  | paymentNotSuccessful
  | caughtError (msg : String)
deriving DecidableEq

/-- `Purchase.objects.create`: the storage layer rejects a duplicate of the
unique `stripe_payment_intent_id` column or of the
`unique_together = [buyer, track, license_type]` constraint with an
`IntegrityError`; otherwise the row is appended. -/
def purchaseCreate (db : DB) (p : Purchase) : Except String DB :=
  if db.purchases.any (fun q => q.stripePaymentIntentId == p.stripePaymentIntentId) then
    Except.error "UNIQUE constraint failed: stripe_payment_intent_id"
  else if db.purchases.any (fun q =>
      q.buyer == p.buyer && q.track == p.track && q.licenseType.name == p.licenseType.name) then
    Except.error "UNIQUE constraint failed: buyer, track, license_type"
  else
    Except.ok { db with purchases := db.purchases ++ [p] }

/-- The `confirm_purchase` view: retrieve the intent from the collaborator;
when its status is `succeeded`, resolve the track and license type from the
intent metadata (`get_object_or_404`, with no status or activity filter),
create the purchase row with `price_paid = intent.amount / 100` and
`payment_status = succeeded`, and increment the track's purchase counter;
otherwise report the payment as not successful.  Exceptions are caught and
surfaced as a 400 with their message. -/
def confirmPurchase (db : DB) (stripe : List PaymentIntent) (buyerId : Nat)
    (paymentIntentId : String) (freshPublicId : Nat) (now : Nat) : DB × ConfirmResponse :=
  match stripe.find? (fun i => i.id == paymentIntentId) with
  | none => (db, ConfirmResponse.caughtError "No such PaymentIntent")
  | some intent =>
    if intent.status == "succeeded" then
      match db.tracks.find? (fun t => t.publicId == intent.metaTrackId) with
      | none => (db, ConfirmResponse.caughtError "Http404: Track")
      | some track =>
        match db.licenseTypes.find? (fun l => l.name == intent.metaLicenseType) with
        | none => (db, ConfirmResponse.caughtError "Http404: LicenseType")
        | some licenseType =>
          let p : Purchase :=
            { publicId := freshPublicId,
              buyer := buyerId,
              track := track.publicId,
              licenseType := licenseType,
              stripePaymentIntentId := paymentIntentId,
              pricePaid := (intent.amount : Rat) / 100,
              currency := "USD",
              paymentStatus := "succeeded",
              licenseFile := none,
              downloadCount := 0,
              maxDownloads := 3,
              purchasedAt := now }
          match purchaseCreate db p with
          | Except.error e => (db, ConfirmResponse.caughtError e)
          | Except.ok db1 =>
              (incrementPurchaseCount db1 track.publicId, ConfirmResponse.success freshPublicId)
    else (db, ConfirmResponse.paymentNotSuccessful)

/-! ## Track download (`download_purchased_track` view) -/

/-- Responses of the `download_purchased_track` view. -/
inductive DownloadResponse where
  | served
  | limitExceeded (used max : Nat)
  | audioNotFound
  | caughtError (msg : String)
deriving DecidableEq

/-- The `download_purchased_track` view: fetch the caller's succeeded
purchase (404 otherwise, surfaced through the catch-all as a 400), refuse
with a 403 when `can_download` fails, 404 when the audio file is missing on
disk, and otherwise increment the download counter and serve the file. -/
def downloadPurchasedTrack (db : DB) (buyerId : Nat) (purchaseId : Nat) :
    DB × DownloadResponse :=
  match db.purchases.find? (fun q =>
      q.publicId == purchaseId && q.buyer == buyerId && q.paymentStatus == "succeeded") with
  | none => (db, DownloadResponse.caughtError "Http404: Purchase")
  | some purchase =>
    if !canDownload purchase then
      (db, DownloadResponse.limitExceeded purchase.downloadCount purchase.maxDownloads)
    else
      match db.tracks.find? (fun t => t.publicId == purchase.track) with
      | none => (db, DownloadResponse.caughtError "Http404: Track")
      | some track =>
        if !track.audioFilePresent then (db, DownloadResponse.audioNotFound)
        else
          (updatePurchase db purchase.publicId (fun q => (incrementDownloadCount q).1),
           DownloadResponse.served)

/-! ## Preview streaming (`stream_preview` view) -/

/-- Responses of the `stream_preview` view: an inline stream of the preview
file, an inline stream of the full original audio file, or `Http404`. -/
inductive PreviewResponse where
  | servedPreviewFile
  | servedFullAudio
  | http404
deriving DecidableEq

/-- The `stream_preview` view (no authentication: the endpoint declares no
permission classes and the project sets no default ones, so it takes no
caller identity).  Approved track required; the preview file is served when
present on disk, otherwise the view falls back to the full main audio file;
`Http404` only when neither exists. -/
def streamPreview (db : DB) (trackId : Nat) : DB × PreviewResponse :=
  match db.tracks.find? (fun t => t.publicId == trackId && t.status == "approved") with
  | none => (db, PreviewResponse.http404)
  | some track =>
    if track.previewFilePresent then
      (incrementPlayCount db track.publicId, PreviewResponse.servedPreviewFile)
    else if track.audioFilePresent then
      (incrementPlayCount db track.publicId, PreviewResponse.servedFullAudio)
    else (db, PreviewResponse.http404)

/-! ## Certificate issuance (`download_license_certificate` view and
`generate_license_certificate`) -/

/-- The pure rendering step of `generate_license_certificate`: the data
content of the produced PDF, a function of the purchase, its track and the
wall clock only. -/
def renderCertificate (track : Track) (p : Purchase) (now : Nat) : Certificate :=
  { certificateId := p.publicId,
    issueDate := p.purchasedAt,
    licenseTypeDisplayName := p.licenseType.displayName,
    trackTitle := track.title,
    buyerId := p.buyer,
    pricePaid := p.pricePaid,
    currency := p.currency,
    allowsCommercialUse := p.licenseType.allowsCommercialUse,
    allowsModification := p.licenseType.allowsModification,
    requiresAttribution := p.licenseType.requiresAttribution,
    maxCopies := p.licenseType.maxCopies,
    downloadsUsed := p.downloadCount,
    downloadsRemaining := p.maxDownloads - p.downloadCount,
    generatedOn := now }

/-- Responses of the `download_license_certificate` view. -/
inductive CertificateResponse where
  | served (doc : Certificate)
  | caughtError (msg : String)
deriving DecidableEq

/-- The `download_license_certificate` view.  The last component counts how
many times `generate_license_certificate` ran during the call: rendering
happens only when no cached `license_file` exists yet, and the rendered
asset is saved on the purchase row before being served. -/
def downloadLicenseCertificate (db : DB) (buyerId : Nat) (purchaseId : Nat)
    (now : Nat) : DB × CertificateResponse × Nat :=
  match db.purchases.find? (fun q =>
      q.publicId == purchaseId && q.buyer == buyerId && q.paymentStatus == "succeeded") with
  | none => (db, CertificateResponse.caughtError "Http404: Purchase", 0)
  | some purchase =>
    match purchase.licenseFile with
    | some doc => (db, CertificateResponse.served doc, 0)
    | none =>
      match db.tracks.find? (fun t => t.publicId == purchase.track) with
      | none => (db, CertificateResponse.caughtError "Http404: Track", 0)
      | some track =>
        let doc := renderCertificate track purchase now
        (updatePurchase db purchase.publicId (fun q => { q with licenseFile := some doc }),
         CertificateResponse.served doc, 1)

/-! ## Upload (`TrackUploadView.perform_create` driving `Track.save`) -/

/-- `TrackUploadView.perform_create`: a first save of a new track row. -/
def uploadTrack (db : DB) (t : Track) (o : DecodeOutcome) : DB :=
  match trackSave t true false o with
  | Except.ok t1 => { db with tracks := db.tracks ++ [t1] }
  | Except.error _ => db

/-! ## Reachable states of the store -/

/-- Two purchase rows collide on the `unique_together` key. -/
def sameTriple (p q : Purchase) : Prop :=
  p.buyer = q.buyer ∧ p.track = q.track ∧ p.licenseType.name = q.licenseType.name

/-- The store-level uniqueness invariant: no two purchase rows share the
(buyer, track, license tier) key. -/
def UniqueTriples (db : DB) : Prop :=
  db.purchases.Pairwise fun p q => ¬ sameTriple p q

/-- Number of succeeded purchase rows for a given (buyer, track, tier). -/
def succeededCount (db : DB) (b tr : Nat) (lt : String) : Nat :=
  db.purchases.countP fun p =>
    p.buyer == b && p.track == tr && p.licenseType.name == lt &&
    p.paymentStatus == "succeeded"

/-- One request handled by any of the modelled endpoints. -/
inductive Step : DB → DB → Prop where
  | createIntent (db : DB) (buyerId : Nat) (trackId : Option Nat) (lt cs : String) :
      Step db (createPaymentIntent db buyerId trackId lt cs).1
  | confirm (db : DB) (stripe : List PaymentIntent) (buyerId : Nat) (pid : String)
      (fresh now : Nat) : Step db (confirmPurchase db stripe buyerId pid fresh now).1
  | download (db : DB) (buyerId purchaseId : Nat) :
      Step db (downloadPurchasedTrack db buyerId purchaseId).1
  | preview (db : DB) (trackId : Nat) : Step db (streamPreview db trackId).1
  | certificate (db : DB) (buyerId purchaseId now : Nat) :
      Step db (downloadLicenseCertificate db buyerId purchaseId now).1
  | upload (db : DB) (t : Track) (o : DecodeOutcome) : Step db (uploadTrack db t o)

/-- States reachable through the modelled endpoints. -/
def Reachable (db0 db : DB) : Prop := Relation.ReflTransGen Step db0 db

/-- `n` successive download requests by the same caller for the same
purchase. -/
def iterDownload (buyerId purchaseId : Nat) : Nat → DB → DB
  | 0, db => db
  | n+1, db =>
      (downloadPurchasedTrack (iterDownload buyerId purchaseId n db) buyerId purchaseId).1

/-! ## Concrete sample rows for witnesses and counterexamples -/

/-- A license-type row with the given name and multiplier. -/
def mkLicense (name : String) (m : Rat) : LicenseType :=
  { name := name, displayName := name, priceMultiplier := m,
    allowsCommercialUse := true, allowsModification := false,
    requiresAttribution := true, maxCopies := none, isActive := true }

/-- An approved track with audio on disk and no preview yet. -/
def mkTrack (pid : Nat) (price : Rat) : Track :=
  { publicId := pid, artist := 1, title := "Song", audioFilePresent := true,
    previewFilePresent := false, previewData := none, duration := some 120,
    fileSize := some 1000, bitrate := some 320, sampleRate := some 44100,
    basePrice := price, status := "approved", playCount := 0,
    downloadCount := 0, purchaseCount := 0 }

/-- A succeeded purchase row with no downloads and no certificate yet. -/
def mkPurchase (pid buyer track : Nat) (l : LicenseType) (sid : String) : Purchase :=
  { publicId := pid, buyer := buyer, track := track, licenseType := l,
    stripePaymentIntentId := sid, pricePaid := 10, currency := "USD",
    paymentStatus := "succeeded", licenseFile := none, downloadCount := 0,
    maxDownloads := 3, purchasedAt := 5 }

/-- A freshly uploaded track with every derived field still unset. -/
def freshTrack : Track :=
  { publicId := 9, artist := 2, title := "New", audioFilePresent := true,
    previewFilePresent := false, previewData := none, duration := none,
    fileSize := none, bitrate := none, sampleRate := none, basePrice := 10,
    status := "draft", playCount := 0, downloadCount := 0, purchaseCount := 0 }

/-- Store exhibiting a 4-decimal price: base 10.01, multiplier 1.11. -/
def priceDB : DB :=
  { tracks := [mkTrack 1 (1001/100)],
    licenseTypes := [mkLicense "extended" (111/100)],
    purchases := [] }

/-- Store exhibiting truncation in intent amounts: base 10.01, multiplier 1.55. -/
def intentDB : DB :=
  { tracks := [mkTrack 1 (1001/100)],
    licenseTypes := [mkLicense "extended" (155/100)],
    purchases := [] }

/-- A succeeded collaborator intent for track 1, standard tier, buyer 7. -/
def dupIntent : PaymentIntent :=
  { id := "pi_2", status := "succeeded", amount := 1000, metaTrackId := 1,
    metaLicenseType := "standard", metaBuyerId := 7, clientSecret := "cs" }

/-- Collaborator state holding just `dupIntent`. -/
def dupStripe : List PaymentIntent := [dupIntent]

/-- Store in which buyer 7 already holds a succeeded standard-tier purchase
of track 1 (under a different payment-intent id). -/
def dupDB : DB :=
  { tracks := [mkTrack 1 10],
    licenseTypes := [mkLicense "standard" 1],
    purchases := [mkPurchase 50 7 1 (mkLicense "standard" 1) "pi_1"] }

/-! # Theorems -/

/-- **C4.** For every track whose audio duration (in milliseconds) exceeds
30 seconds, the generated preview clip starts at offset `floor(duration/4)`
and has length `min (30 s) (duration - start)`; for a duration of at most
30 seconds the preview is the whole track; and `_generate_preview` stores
exactly this clip on the track. -/
theorem C4_preview_window (t : Track) (audio : List Int) (fsize : Nat)
    (br sr : Option Nat) (ht : t.audioFilePresent = true) :
    (audio.length > 30 * 1000 →
      (previewClip audio).length = min (30 * 1000) (audio.length - audio.length / 4) ∧
      ∀ i, i < (previewClip audio).length →
        (previewClip audio)[i]? = audio[audio.length / 4 + i]?) ∧
    (audio.length ≤ 30 * 1000 → previewClip audio = audio) ∧
    (generatePreview t (DecodeOutcome.decoded audio fsize br sr)).previewData
      = some (previewClip audio) := by
  refine ⟨fun h => ⟨?_, ?_⟩, fun h => ?_, ?_⟩
  · simp [previewClip, if_pos h]
  · intro i hi
    have hcl : previewClip audio = (audio.drop (audio.length / 4)).take (30 * 1000) := by
      simp [previewClip, if_pos h]
    rw [hcl] at hi ⊢
    rw [List.getElem?_take, if_pos (by simp at hi; omega), List.getElem?_drop]
  · simp only [previewClip]
    rw [if_neg (by omega)]
  · simp [generatePreview, ht]

/-- Witness for C4 at a 31-second track. -/
theorem C4_preview_window_witness :
    (List.replicate 31000 (0 : Int)).length > 30 * 1000 ∧
    (previewClip (List.replicate 31000 (0 : Int))).length
      = min (30 * 1000) ((List.replicate 31000 (0 : Int)).length
          - (List.replicate 31000 (0 : Int)).length / 4) :=
  ⟨by simp only [List.length_replicate]; norm_num,
    ((C4_preview_window (mkTrack 1 10) (List.replicate 31000 0) 5 none none
      rfl).1 (by simp only [List.length_replicate]; norm_num)).1⟩

/-- **C5 counterexample.** The source applies no rounding: with base price
10.01 and multiplier 1.11 the computed price is 11.1111, not the
2-decimal-rounded 11.11 the claim asserts. -/
theorem C5_counterexample :
    getLicensePrice priceDB (mkTrack 1 (1001/100)) "extended"
      ≠ specRoundTo2 ((mkTrack 1 (1001/100)).basePrice
          * (mkLicense "extended" (111/100)).priceMultiplier) := by
  norm_num [getLicensePrice, priceDB, mkTrack, mkLicense, specRoundTo2, round_eq,
    List.find?]

/-- **C5 (amended).** For every track and license-tier name naming an active
license type, the computed price is exactly `base_price * price_multiplier`
(no rounding to 2 decimal places is applied), and repeated calls with
unchanged data return the same value. -/
theorem C5_price_formula (db : DB) (t : Track) (name : String) (l : LicenseType)
    (h : db.licenseTypes.find? (fun x => x.name == name && x.isActive) = some l) :
    getLicensePrice db t name = t.basePrice * l.priceMultiplier ∧
    getLicensePrice db t name = getLicensePrice db t name := by
  exact ⟨by simp [getLicensePrice, h], rfl⟩

/-- Witness for C5 (amended) on `priceDB`. -/
theorem C5_price_formula_witness :
    priceDB.licenseTypes.find? (fun x => x.name == "extended" && x.isActive)
      = some (mkLicense "extended" (111/100)) ∧
    getLicensePrice priceDB (mkTrack 1 (1001/100)) "extended"
      = (mkTrack 1 (1001/100)).basePrice * (mkLicense "extended" (111/100)).priceMultiplier :=
  ⟨rfl, (C5_price_formula priceDB (mkTrack 1 (1001/100)) "extended"
      (mkLicense "extended" (111/100)) rfl).1⟩

/-- **C6.** When no active license type carries the requested name, the
pricing calculator returns the unmultiplied base price (and raises nothing:
`DoesNotExist` is caught inside `get_license_price`). -/
theorem C6_unknown_tier_fallback (db : DB) (t : Track) (name : String)
    (h : ∀ l ∈ db.licenseTypes, ¬(l.name = name ∧ l.isActive = true)) :
    getLicensePrice db t name = t.basePrice := by
  have hf : db.licenseTypes.find? (fun l => l.name == name && l.isActive) = none := by
    rw [List.find?_eq_none]
    intro l hl
    have := h l hl
    simp only [Bool.and_eq_true, beq_iff_eq]
    intro hc
    exact this ⟨hc.1, hc.2⟩
  simp [getLicensePrice, hf]

/-- Witness for C6: an unknown tier name against `priceDB`. -/
theorem C6_unknown_tier_fallback_witness :
    (∀ l ∈ priceDB.licenseTypes, ¬(l.name = "commercial" ∧ l.isActive = true)) ∧
    getLicensePrice priceDB (mkTrack 1 (1001/100)) "commercial"
      = (mkTrack 1 (1001/100)).basePrice :=
  ⟨by decide, C6_unknown_tier_fallback priceDB (mkTrack 1 (1001/100)) "commercial"
      (by decide)⟩

/-- **C9.** When audio decoding fails during a save, the failure is swallowed
(the save still returns `ok`) and all four derived metadata fields remain
unset. -/
theorem C9_decode_failure_nonfatal (t : Track) (isNew audioChanged : Bool)
    (h1 : t.duration = none) (h2 : t.fileSize = none) (h3 : t.bitrate = none)
    (h4 : t.sampleRate = none) :
    ∃ t1, trackSave t isNew audioChanged DecodeOutcome.decodeFailure = Except.ok t1 ∧
      t1.duration = none ∧ t1.fileSize = none ∧ t1.bitrate = none ∧
      t1.sampleRate = none := by
  refine ⟨t, ?_, h1, h2, h3, h4⟩
  simp [trackSave, extractAudioMetadata, generatePreview]

/-- Witness for C9 on a freshly uploaded track. -/
theorem C9_decode_failure_nonfatal_witness :
    freshTrack.duration = none ∧
    ∃ t1, trackSave freshTrack true false DecodeOutcome.decodeFailure = Except.ok t1 ∧
      t1.duration = none ∧ t1.fileSize = none ∧ t1.bitrate = none ∧
      t1.sampleRate = none :=
  ⟨rfl, C9_decode_failure_nonfatal freshTrack true false rfl rfl rfl rfl⟩

/-- **C10.** For an approved track whose preview file is unavailable, the
unauthenticated preview endpoint (the operation takes no caller identity at
all) serves the complete original audio file whenever it exists, and answers
`Http404` exactly when neither file is available. -/
theorem C10_preview_fallback (db : DB) (trackId : Nat) (t : Track)
    (h : db.tracks.find? (fun x => x.publicId == trackId && x.status == "approved")
      = some t) :
    (t.previewFilePresent = false → t.audioFilePresent = true →
      (streamPreview db trackId).2 = PreviewResponse.servedFullAudio) ∧
    ((streamPreview db trackId).2 = PreviewResponse.http404 ↔
      t.previewFilePresent = false ∧ t.audioFilePresent = false) := by
  constructor
  · intro hp ha
    simp [streamPreview, h, hp, ha]
  · cases hp : t.previewFilePresent <;> cases ha : t.audioFilePresent <;>
      simp [streamPreview, h, hp, ha]

/-- Witness for C10 on `priceDB`, whose track has audio but no preview. -/
theorem C10_preview_fallback_witness :
    priceDB.tracks.find? (fun x => x.publicId == 1 && x.status == "approved")
      = some (mkTrack 1 (1001/100)) ∧
    (streamPreview priceDB 1).2 = PreviewResponse.servedFullAudio :=
  ⟨rfl, (C10_preview_fallback priceDB 1 (mkTrack 1 (1001/100))
      rfl).1 rfl rfl⟩

/-- **C7 counterexample.** The view computes `int(price * 100)`, which
truncates: with base price 10.01 and multiplier 1.55, price×100 = 1551.55,
the collaborator is asked to authorize 1551 minor units while
`round(price × 100)` is 1552. -/
theorem C7_counterexample :
    (createPaymentIntent intentDB 7 (some 1) "extended" "cs").2.1
      ≠ some (round (getLicensePrice intentDB (mkTrack 1 (1001/100)) "extended" * 100)) := by
  have h1 : (createPaymentIntent intentDB 7 (some 1) "extended" "cs").2.1
      = some (pyInt ((1001/100 : Rat) * (155/100) * 100)) := rfl
  have h2 : getLicensePrice intentDB (mkTrack 1 (1001/100)) "extended"
      = (1001/100 : Rat) * (155/100) := rfl
  rw [h1, h2]
  intro h
  rw [Option.some_inj] at h
  revert h
  norm_num [pyInt, round_eq]

/-- **C7 (amended).** When the track exists and is approved and the buyer
holds no succeeded purchase for the (track, tier) pair, `create_payment_intent`
authorizes exactly `int(price * 100)` minor units — the truncation of
price×100 toward zero, not its rounding to the nearest unit — returns the
collaborator's client-confirmation token, and performs no write on the local
store. -/
theorem C7_create_intent (db : DB) (buyerId tid : Nat) (lt cs : String) (track : Track)
    (hfind : db.tracks.find? (fun t => t.publicId == tid && t.status == "approved")
      = some track)
    (hnone : db.purchases.any (fun p => p.buyer == buyerId && p.track == track.publicId &&
        p.licenseType.name == lt && p.paymentStatus == "succeeded") = false) :
    (createPaymentIntent db buyerId (some tid) lt cs).1 = db ∧
    (createPaymentIntent db buyerId (some tid) lt cs).2.1
      = some (pyInt (getLicensePrice db track lt * 100)) ∧
    (createPaymentIntent db buyerId (some tid) lt cs).2.2
      = IntentResponse.ok cs (getLicensePrice db track lt) track.title lt := by
  unfold createPaymentIntent
  dsimp only
  rw [hfind]
  dsimp only
  simp [hnone]

/-- Witness for C7 (amended) on `intentDB`. -/
theorem C7_create_intent_witness :
    intentDB.tracks.find? (fun t => t.publicId == 1 && t.status == "approved")
      = some (mkTrack 1 (1001/100)) ∧
    (createPaymentIntent intentDB 7 (some 1) "extended" "cs").1 = intentDB :=
  ⟨rfl, (C7_create_intent intentDB 7 1 "extended" "cs" (mkTrack 1 (1001/100))
      rfl rfl).1⟩

/-- **C2 counterexample.** "Creates a Purchase row if and only if the
authorization is succeeded" fails in the only-if→if direction: in `dupDB`
the intent `pi_2` is succeeded, yet confirming it creates no row because the
(buyer, track, tier) triple already exists — the unique constraint rejects
the insert. -/
theorem C2_counterexample :
    (dupStripe.find? (fun i => i.id == "pi_2")).map PaymentIntent.status
      = some "succeeded" ∧
    (confirmPurchase dupDB dupStripe 7 "pi_2" 51 9).1.purchases = dupDB.purchases ∧
    (confirmPurchase dupDB dupStripe 7 "pi_2" 51 9).2
      = ConfirmResponse.caughtError "UNIQUE constraint failed: buyer, track, license_type" :=
  ⟨rfl, rfl, rfl⟩

/-- **C2 (amended).** The confirm operation creates a Purchase row only if
the collaborator reports the authorization as succeeded; when it is
succeeded, the referenced track and license tier resolve, and no existing
row conflicts on the payment-intent id or the (buyer, track, tier) key,
exactly one row is created with `payment_status = succeeded` and
`price_paid = amount / 100` taken from the authorization, and the track's
`purchase_count` is incremented by 1; when the authorization is not
succeeded, no row is created and the caller is told the payment failed. -/
theorem C2_confirm_effects (db : DB) (stripe : List PaymentIntent) (buyerId : Nat)
    (pid : String) (fresh now : Nat) (intent : PaymentIntent)
    (hint : stripe.find? (fun i => i.id == pid) = some intent) :
    (intent.status ≠ "succeeded" →
      (confirmPurchase db stripe buyerId pid fresh now).1 = db ∧
      (confirmPurchase db stripe buyerId pid fresh now).2
        = ConfirmResponse.paymentNotSuccessful) ∧
    ((confirmPurchase db stripe buyerId pid fresh now).1.purchases ≠ db.purchases →
      intent.status = "succeeded") ∧
    (∀ track licenseType,
      intent.status = "succeeded" →
      db.tracks.find? (fun t => t.publicId == intent.metaTrackId) = some track →
      db.licenseTypes.find? (fun l => l.name == intent.metaLicenseType)
        = some licenseType →
      db.purchases.any (fun q => q.stripePaymentIntentId == pid) = false →
      db.purchases.any (fun q => q.buyer == buyerId && q.track == track.publicId &&
          q.licenseType.name == licenseType.name) = false →
      ∃ p, (confirmPurchase db stripe buyerId pid fresh now).1.purchases
            = db.purchases ++ [p] ∧
        p.paymentStatus = "succeeded" ∧
        p.pricePaid = (intent.amount : Rat) / 100 ∧
        p.buyer = buyerId ∧ p.track = track.publicId ∧
        p.licenseType = licenseType ∧
        (confirmPurchase db stripe buyerId pid fresh now).2
          = ConfirmResponse.success fresh ∧
        (confirmPurchase db stripe buyerId pid fresh now).1.tracks.find?
            (fun t => t.publicId == track.publicId)
          = (db.tracks.find? (fun t => t.publicId == track.publicId)).map
              (fun t => { t with purchaseCount := t.purchaseCount + 1 })) := by
  refine ⟨?_, ?_, ?_⟩
  · intro hs
    unfold confirmPurchase
    rw [hint]
    dsimp only
    rw [if_neg (by simpa using hs)]
    exact ⟨rfl, rfl⟩
  · intro hchanged
    by_contra hs
    apply hchanged
    unfold confirmPurchase
    rw [hint]
    dsimp only
    rw [if_neg (by simpa using hs)]
  · intro track licenseType hs htr hlic hdup htrip
    unfold confirmPurchase
    rw [hint]
    dsimp only
    rw [if_pos (by simpa using hs)]
    rw [htr]
    dsimp only
    rw [hlic]
    dsimp only
    have hcreate : purchaseCreate db
        { publicId := fresh, buyer := buyerId, track := track.publicId,
          licenseType := licenseType, stripePaymentIntentId := pid,
          pricePaid := (intent.amount : Rat) / 100, currency := "USD",
          paymentStatus := "succeeded", licenseFile := none, downloadCount := 0,
          maxDownloads := 3, purchasedAt := now }
        = Except.ok { db with purchases := db.purchases ++
            [{ publicId := fresh, buyer := buyerId, track := track.publicId,
               licenseType := licenseType, stripePaymentIntentId := pid,
               pricePaid := (intent.amount : Rat) / 100, currency := "USD",
               paymentStatus := "succeeded", licenseFile := none, downloadCount := 0,
               maxDownloads := 3, purchasedAt := now }] } := by
      unfold purchaseCreate
      rw [if_neg (by simp [hdup]), if_neg (by simp [htrip])]
    rw [hcreate]
    dsimp only
    refine ⟨_, rfl, rfl, rfl, rfl, rfl, rfl, rfl, ?_⟩
    unfold incrementPurchaseCount
    simp only [List.find?_map]
    have hpred : ((fun t : Track => t.publicId == track.publicId) ∘
        (fun t : Track => if t.publicId == track.publicId
          then { t with purchaseCount := t.purchaseCount + 1 } else t))
        = fun t : Track => t.publicId == track.publicId := by
      funext t
      by_cases h : t.publicId = track.publicId <;> simp [h]
    rw [hpred]
    cases hfd : db.tracks.find? (fun t => t.publicId == track.publicId) with
    | none => rfl
    | some u =>
      have hu := List.find?_some hfd
      have hu2 : u.publicId = track.publicId := by simpa using hu
      simp [hu2]

/-- Evaluation of a lookup in a one-row table whose row matches. -/
theorem find?_singleton_pos {α : Type} (p : α → Bool) (a : α) (h : p a = true) :
    [a].find? p = some a := by
  simp [List.find?, h]

/-- **C8.** Certificate issuance is lazy and idempotent: on a succeeded
purchase with no cached certificate, the first request renders exactly once
and stores the document on the purchase row; the second request renders
zero times, changes nothing, and returns the very stored document (equal
even in its generated-on stamp, hence equal modulo the timestamp). -/
theorem C8_certificate_idempotent (t : Track) (lts : List LicenseType) (p : Purchase)
    (b pid now1 now2 : Nat)
    (hpid : p.publicId = pid) (hbuyer : p.buyer = b)
    (hstatus : p.paymentStatus = "succeeded") (hfile : p.licenseFile = none)
    (htrack : p.track = t.publicId) :
    let db : DB := { tracks := [t], licenseTypes := lts, purchases := [p] }
    let call1 := downloadLicenseCertificate db b pid now1
    let call2 := downloadLicenseCertificate call1.1 b pid now2
    call1.2.2 = 1 ∧
    call1.2.1 = CertificateResponse.served (renderCertificate t p now1) ∧
    call1.1.purchases = [{ p with licenseFile := some (renderCertificate t p now1) }] ∧
    call2.2.2 = 0 ∧
    call2.2.1 = CertificateResponse.served (renderCertificate t p now1) ∧
    call2.1 = call1.1 := by
  have hfind1 : [p].find? (fun q => q.publicId == pid && q.buyer == b &&
      q.paymentStatus == "succeeded") = some p := by
    apply find?_singleton_pos
    simp [hpid, hbuyer, hstatus]
  have hfind2 : [({ p with licenseFile := some (renderCertificate t p now1) } :
        Purchase)].find? (fun q => q.publicId == pid && q.buyer == b &&
      q.paymentStatus == "succeeded")
      = some { p with licenseFile := some (renderCertificate t p now1) } := by
    apply find?_singleton_pos
    simp [hpid, hbuyer, hstatus]
  have htfind : [t].find? (fun x => x.publicId == p.track) = some t := by
    apply find?_singleton_pos
    simp [htrack]
  have h1 : downloadLicenseCertificate
        { tracks := [t], licenseTypes := lts, purchases := [p] } b pid now1
      = ({ tracks := [t], licenseTypes := lts,
            purchases := [{ p with licenseFile := some (renderCertificate t p now1) }] },
          CertificateResponse.served (renderCertificate t p now1), 1) := by
    unfold downloadLicenseCertificate
    dsimp only
    rw [hfind1]
    dsimp only
    rw [hfile]
    dsimp only
    rw [htfind]
    dsimp only
    unfold updatePurchase
    simp
  have h2 : downloadLicenseCertificate
        { tracks := [t], licenseTypes := lts,
          purchases := [{ p with licenseFile := some (renderCertificate t p now1) }] }
        b pid now2
      = ({ tracks := [t], licenseTypes := lts,
            purchases := [{ p with licenseFile := some (renderCertificate t p now1) }] },
          CertificateResponse.served (renderCertificate t p now1), 0) := by
    unfold downloadLicenseCertificate
    dsimp only
    rw [hfind2]
  dsimp only
  rw [h1]
  dsimp only
  rw [h2]
  exact ⟨rfl, rfl, rfl, rfl, rfl, rfl⟩

/-- Witness for C8 at a concrete purchase. -/
theorem C8_certificate_idempotent_witness :
    (mkPurchase 50 7 1 (mkLicense "standard" 1) "pi_1").licenseFile = none ∧
    (downloadLicenseCertificate
        { tracks := [mkTrack 1 10], licenseTypes := [],
          purchases := [mkPurchase 50 7 1 (mkLicense "standard" 1) "pi_1"] }
        7 50 100).2.2 = 1 :=
  ⟨rfl, (C8_certificate_idempotent (mkTrack 1 10) [] (mkPurchase 50 7 1
      (mkLicense "standard" 1) "pi_1") 7 50 100 200 rfl rfl rfl rfl rfl).1⟩

/-- **C3.** A download succeeds exactly when the purchase is succeeded and
below quota; starting from a succeeded purchase with `download_count = 0`
and `max_downloads = 3`, after `n` download requests the counter reads
`min n 3` and the status is still succeeded: the first three requests are
served and every later one answers the 403 limit error with the counter
frozen at 3. -/
theorem C3_download_quota (t : Track) (lts : List LicenseType) (p : Purchase)
    (b pid : Nat)
    (hpid : p.publicId = pid) (hbuyer : p.buyer = b)
    (hstatus : p.paymentStatus = "succeeded") (hcount : p.downloadCount = 0)
    (hmax : p.maxDownloads = 3) (htrack : p.track = t.publicId)
    (haudio : t.audioFilePresent = true) :
    (∀ q, canDownload q = true ↔
      (q.paymentStatus = "succeeded" ∧ q.downloadCount < q.maxDownloads)) ∧
    ∀ n,
      let dbn := iterDownload b pid n
        { tracks := [t], licenseTypes := lts, purchases := [p] }
      dbn.purchases.map Purchase.downloadCount = [min n 3] ∧
      dbn.purchases.map Purchase.paymentStatus = ["succeeded"] ∧
      (downloadPurchasedTrack dbn b pid).2
        = if n < 3 then DownloadResponse.served
          else DownloadResponse.limitExceeded 3 3 := by
  have hchar : ∀ q : Purchase, canDownload q = true ↔
      (q.paymentStatus = "succeeded" ∧ q.downloadCount < q.maxDownloads) := by
    intro q
    simp [canDownload]
  have hstep : ∀ k, downloadPurchasedTrack
        { tracks := [t], licenseTypes := lts,
          purchases := [{ p with downloadCount := k }] } b pid
      = if k < 3 then
          ({ tracks := [t], licenseTypes := lts,
             purchases := [{ p with downloadCount := k + 1 }] },
           DownloadResponse.served)
        else
          ({ tracks := [t], licenseTypes := lts,
             purchases := [{ p with downloadCount := k }] },
           DownloadResponse.limitExceeded k 3) := by
    intro k
    have hfk : [({ p with downloadCount := k } : Purchase)].find?
        (fun q => q.publicId == pid && q.buyer == b &&
          q.paymentStatus == "succeeded")
        = some { p with downloadCount := k } := by
      apply find?_singleton_pos
      simp [hpid, hbuyer, hstatus]
    have htf : [t].find? (fun x =>
        x.publicId == ({ p with downloadCount := k } : Purchase).track) = some t := by
      apply find?_singleton_pos
      simp [htrack]
    have hcd : canDownload { p with downloadCount := k } = decide (k < 3) := by
      simp [canDownload, hstatus, hmax]
    unfold downloadPurchasedTrack
    dsimp only
    rw [hfk]
    dsimp only
    rw [hcd]
    by_cases hk : k < 3
    · rw [if_pos hk]
      simp only [decide_eq_true hk, Bool.not_true, Bool.false_eq_true, if_false]
      rw [htf]
      dsimp only
      rw [haudio]
      unfold updatePurchase incrementDownloadCount
      simp [hcd, hk]
    · rw [if_neg hk]
      simp [decide_eq_false hk, hmax]
  have hinv : ∀ n, iterDownload b pid n
        { tracks := [t], licenseTypes := lts, purchases := [p] }
      = { tracks := [t], licenseTypes := lts,
          purchases := [{ p with downloadCount := min n 3 }] } := by
    intro n
    induction n with
    | zero =>
        have h0 : ({ p with downloadCount := min 0 3 } : Purchase) = p := by
          rw [show min 0 3 = p.downloadCount from by simp [hcount]]
        rw [h0]
        rfl
    | succ m ih =>
        unfold iterDownload
        rw [ih, hstep]
        by_cases hm : m < 3
        · rw [if_pos (show min m 3 < 3 from by omega)]
          dsimp only
          rw [show min m 3 + 1 = min (m + 1) 3 from by omega]
        · rw [if_neg (show ¬ min m 3 < 3 from by omega)]
          dsimp only
          rw [show min m 3 = min (m + 1) 3 from by omega]
  refine ⟨hchar, ?_⟩
  intro n
  dsimp only
  rw [hinv n]
  refine ⟨rfl, by simp [hstatus], ?_⟩
  rw [hstep]
  by_cases hn : n < 3
  · rw [if_pos (show min n 3 < 3 from by omega), if_pos hn]
  · rw [if_neg (show ¬ min n 3 < 3 from by omega), if_neg hn]
    dsimp only
    rw [show min n 3 = 3 from by omega]

/-- Witness for C3 at a concrete purchase after 5 requests. -/
theorem C3_download_quota_witness :
    (mkPurchase 50 7 1 (mkLicense "standard" 1) "pi_1").downloadCount = 0 ∧
    (iterDownload 7 50 5
        { tracks := [mkTrack 1 10], licenseTypes := [],
          purchases := [mkPurchase 50 7 1 (mkLicense "standard" 1) "pi_1"] }).purchases.map
      Purchase.downloadCount = [min 5 3] :=
  ⟨rfl, ((C3_download_quota (mkTrack 1 10) [] (mkPurchase 50 7 1
      (mkLicense "standard" 1) "pi_1") 7 50 rfl rfl rfl rfl rfl rfl rfl).2 5).1⟩

/-- `create_payment_intent` performs no write on the store. -/
theorem createPaymentIntent_fst (db : DB) (buyerId : Nat) (trackId : Option Nat)
    (lt cs : String) : (createPaymentIntent db buyerId trackId lt cs).1 = db := by
  unfold createPaymentIntent
  cases trackId with
  | none => rfl
  | some tid =>
    dsimp only
    cases hf : db.tracks.find? (fun t => t.publicId == tid && t.status == "approved") with
    | none => rfl
    | some track =>
      dsimp only
      split <;> rfl

/-- `stream_preview` touches only the track's play counter. -/
theorem streamPreview_purchases (db : DB) (trackId : Nat) :
    (streamPreview db trackId).1.purchases = db.purchases := by
  unfold streamPreview
  cases hf : db.tracks.find? (fun t => t.publicId == trackId && t.status == "approved") with
  | none => rfl
  | some track =>
    dsimp only
    split
    · rfl
    · split <;> rfl

/-- An upload appends a track row and leaves the purchases table unchanged. -/
theorem uploadTrack_purchases (db : DB) (t : Track) (o : DecodeOutcome) :
    (uploadTrack db t o).purchases = db.purchases := rfl

/-- Row updates that keep the (buyer, track, tier) key preserve the
uniqueness invariant. -/
theorem updatePurchase_uniqueTriples (db : DB) (pid : Nat) (f : Purchase → Purchase)
    (hf : ∀ q, (f q).buyer = q.buyer ∧ (f q).track = q.track ∧
      (f q).licenseType = q.licenseType)
    (hu : UniqueTriples db) : UniqueTriples (updatePurchase db pid f) := by
  have htrip : ∀ q : Purchase,
      sameTriple (if q.publicId == pid then f q else q) q := by
    intro q
    by_cases h : (q.publicId == pid) = true
    · rw [if_pos h]
      exact ⟨(hf q).1, (hf q).2.1, congrArg LicenseType.name (hf q).2.2⟩
    · rw [if_neg h]
      exact ⟨rfl, rfl, rfl⟩
  unfold UniqueTriples updatePurchase at *
  dsimp only
  refine List.Pairwise.map _ ?_ hu
  intro a b hab hst
  apply hab
  have ha := htrip a
  have hb := htrip b
  exact ⟨by rw [← ha.1, hst.1, hb.1], by rw [← ha.2.1, hst.2.1, hb.2.1],
    by rw [← ha.2.2, hst.2.2, hb.2.2]⟩

/-- `Purchase.objects.create` preserves the uniqueness invariant: the
insert only succeeds after the storage layer has checked the key. -/
theorem purchaseCreate_uniqueTriples (db : DB) (p : Purchase) (db1 : DB)
    (h : purchaseCreate db p = Except.ok db1) (hu : UniqueTriples db) :
    UniqueTriples db1 := by
  unfold purchaseCreate at h
  split at h
  · simp at h
  · split at h
    next htrip2 => simp at h
    next htrip2 =>
      injection h with h
      subst h
      unfold UniqueTriples at *
      dsimp only
      rw [List.pairwise_append]
      refine ⟨hu, List.pairwise_singleton _ _, ?_⟩
      intro a ha c hc
      rw [List.mem_singleton] at hc
      subst hc
      intro hst
      apply htrip2
      rw [List.any_eq_true]
      exact ⟨a, ha, by simp [hst.1, hst.2.1, hst.2.2]⟩

/-- Every modelled request preserves the purchase-key uniqueness invariant. -/
theorem step_uniqueTriples (db db2 : DB) (h : Step db db2) (hu : UniqueTriples db) :
    UniqueTriples db2 := by
  cases h with
  | createIntent buyerId trackId lt cs =>
      rw [createPaymentIntent_fst]
      exact hu
  | confirm stripe buyerId pid fresh now =>
      unfold confirmPurchase
      cases hi : stripe.find? (fun i => i.id == pid) with
      | none => exact hu
      | some intent =>
        dsimp only
        split
        · cases ht : db.tracks.find? (fun t => t.publicId == intent.metaTrackId) with
          | none => exact hu
          | some track =>
            dsimp only
            cases hl : db.licenseTypes.find? (fun l => l.name == intent.metaLicenseType) with
            | none => exact hu
            | some licenseType =>
              dsimp only
              cases hc : purchaseCreate db
                  { publicId := fresh, buyer := buyerId, track := track.publicId,
                    licenseType := licenseType, stripePaymentIntentId := pid,
                    pricePaid := (intent.amount : Rat) / 100, currency := "USD",
                    paymentStatus := "succeeded", licenseFile := none,
                    downloadCount := 0, maxDownloads := 3, purchasedAt := now } with
              | error e => exact hu
              | ok db1 => exact purchaseCreate_uniqueTriples db _ db1 hc hu
        · exact hu
  | download buyerId purchaseId =>
      unfold downloadPurchasedTrack
      cases hf : db.purchases.find? (fun q => q.publicId == purchaseId &&
          q.buyer == buyerId && q.paymentStatus == "succeeded") with
      | none => exact hu
      | some purchase =>
        dsimp only
        split
        · exact hu
        · cases ht : db.tracks.find? (fun t => t.publicId == purchase.track) with
          | none => exact hu
          | some track =>
            dsimp only
            split
            · exact hu
            · refine updatePurchase_uniqueTriples db purchase.publicId _ ?_ hu
              intro q
              unfold incrementDownloadCount
              split <;> exact ⟨rfl, rfl, rfl⟩
  | preview trackId =>
      unfold UniqueTriples at *
      rw [streamPreview_purchases]
      exact hu
  | certificate buyerId purchaseId now =>
      unfold downloadLicenseCertificate
      cases hf : db.purchases.find? (fun q => q.publicId == purchaseId &&
          q.buyer == buyerId && q.paymentStatus == "succeeded") with
      | none => exact hu
      | some purchase =>
        dsimp only
        cases hlf : purchase.licenseFile with
        | some doc => exact hu
        | none =>
          dsimp only
          cases ht : db.tracks.find? (fun t => t.publicId == purchase.track) with
          | none => exact hu
          | some track =>
            exact updatePurchase_uniqueTriples db purchase.publicId _
              (fun q => ⟨rfl, rfl, rfl⟩) hu
  | upload t o =>
      unfold UniqueTriples at *
      rw [uploadTrack_purchases]
      exact hu

/-- Under pairwise-distinct keys, at most one row matches any fixed
(buyer, track, tier, succeeded) filter. -/
theorem countP_triple_le_one (l : List Purchase)
    (hu : l.Pairwise fun a c => ¬ sameTriple a c) (b tr : Nat) (lt : String) :
    l.countP (fun q => q.buyer == b && q.track == tr && q.licenseType.name == lt &&
      q.paymentStatus == "succeeded") ≤ 1 := by
  induction l with
  | nil => simp
  | cons hd tl ih =>
    rw [List.pairwise_cons] at hu
    rw [List.countP_cons]
    by_cases hhd : (hd.buyer == b && hd.track == tr && hd.licenseType.name == lt &&
        hd.paymentStatus == "succeeded") = true
    · have h0 : tl.countP (fun q => q.buyer == b && q.track == tr &&
          q.licenseType.name == lt && q.paymentStatus == "succeeded") = 0 := by
        rw [List.countP_eq_zero]
        intro q hq hqp
        apply hu.1 q hq
        simp only [Bool.and_eq_true, beq_iff_eq] at hhd hqp
        exact ⟨hhd.1.1.1.trans hqp.1.1.1.symm, hhd.1.1.2.trans hqp.1.1.2.symm,
          hhd.1.2.trans hqp.1.2.symm⟩
      rw [h0, if_pos hhd]
    · rw [if_neg hhd]
      have := ih hu.2
      omega

/-- The invariant holds in every state reachable through the endpoints. -/
theorem reachable_uniqueTriples (db0 db : DB) (h0 : UniqueTriples db0)
    (h : Reachable db0 db) : UniqueTriples db := by
  induction h with
  | refl => exact h0
  | tail hsteps hstep ih => exact step_uniqueTriples _ _ hstep ih

/-- **C1.** In every store reachable from an empty purchases table, at most
one succeeded purchase exists per (buyer, track, license tier); and once a
purchase for a triple exists, any further confirm attempt for the identical
triple is rejected with the storage conflict surfaced as an error and leaves
the store — in particular the purchases table — unchanged. -/
theorem C1_purchase_triple_uniqueness :
    (∀ db0 db, db0.purchases = [] → Reachable db0 db →
      ∀ b tr lt, succeededCount db b tr lt ≤ 1) ∧
    (∀ db stripe buyerId pid fresh now intent q,
      stripe.find? (fun i => i.id == pid) = some intent →
      intent.status = "succeeded" →
      q ∈ db.purchases →
      q.paymentStatus = "succeeded" →
      q.buyer = buyerId →
      q.track = intent.metaTrackId →
      q.licenseType.name = intent.metaLicenseType →
      (db.tracks.find? (fun t => t.publicId == intent.metaTrackId)).isSome →
      (db.licenseTypes.find? (fun l => l.name == intent.metaLicenseType)).isSome →
      (confirmPurchase db stripe buyerId pid fresh now).1 = db ∧
      ∃ e, (confirmPurchase db stripe buyerId pid fresh now).2
          = ConfirmResponse.caughtError e ∧
        (e = "UNIQUE constraint failed: stripe_payment_intent_id" ∨
         e = "UNIQUE constraint failed: buyer, track, license_type")) := by
  constructor
  · intro db0 db h0 hr b tr lt
    have hu : UniqueTriples db := reachable_uniqueTriples db0 db
      (by unfold UniqueTriples; rw [h0]; exact List.Pairwise.nil) hr
    exact countP_triple_le_one db.purchases hu b tr lt
  · intro db stripe buyerId pid fresh now intent q hint hs hq hqs hqb hqt hqlt hts hls
    obtain ⟨track, htr⟩ := Option.isSome_iff_exists.mp hts
    obtain ⟨licenseType, hlic⟩ := Option.isSome_iff_exists.mp hls
    have htrp : track.publicId = intent.metaTrackId := by
      have := List.find?_some htr
      simpa using this
    have hlname : licenseType.name = intent.metaLicenseType := by
      have := List.find?_some hlic
      simpa using this
    unfold confirmPurchase
    rw [hint]
    dsimp only
    rw [if_pos (by simpa using hs)]
    rw [htr]
    dsimp only
    rw [hlic]
    dsimp only
    by_cases hdup : (db.purchases.any fun x => x.stripePaymentIntentId == pid) = true
    · have hc : purchaseCreate db
          { publicId := fresh, buyer := buyerId, track := track.publicId,
            licenseType := licenseType, stripePaymentIntentId := pid,
            pricePaid := (intent.amount : Rat) / 100, currency := "USD",
            paymentStatus := "succeeded", licenseFile := none,
            downloadCount := 0, maxDownloads := 3, purchasedAt := now }
          = Except.error "UNIQUE constraint failed: stripe_payment_intent_id" := by
        unfold purchaseCreate
        rw [if_pos hdup]
      rw [hc]
      exact ⟨rfl, _, rfl, Or.inl rfl⟩
    · have hany : (db.purchases.any fun x => x.buyer == buyerId &&
          x.track == track.publicId && x.licenseType.name == licenseType.name)
          = true := by
        rw [List.any_eq_true]
        exact ⟨q, hq, by simp [hqb, hqt, hqlt, htrp, hlname]⟩
      have hc : purchaseCreate db
          { publicId := fresh, buyer := buyerId, track := track.publicId,
            licenseType := licenseType, stripePaymentIntentId := pid,
            pricePaid := (intent.amount : Rat) / 100, currency := "USD",
            paymentStatus := "succeeded", licenseFile := none,
            downloadCount := 0, maxDownloads := 3, purchasedAt := now }
          = Except.error "UNIQUE constraint failed: buyer, track, license_type" := by
        unfold purchaseCreate
        rw [if_neg hdup, if_pos hany]
      rw [hc]
      exact ⟨rfl, _, rfl, Or.inr rfl⟩

/-- Witness for C1: the duplicate confirm against `dupDB` is rejected and
the store is unchanged. -/
theorem C1_purchase_triple_uniqueness_witness :
    dupIntent.status = "succeeded" ∧
    (confirmPurchase dupDB dupStripe 7 "pi_2" 51 9).1 = dupDB :=
  ⟨rfl, (C1_purchase_triple_uniqueness.2 dupDB dupStripe 7 "pi_2" 51 9 dupIntent
      (mkPurchase 50 7 1 (mkLicense "standard" 1) "pi_1")
      rfl rfl (List.mem_cons_self _ _) rfl rfl rfl rfl rfl rfl).1⟩

/-- Witness for C2 (amended): the not-succeeded branch at a concrete store. -/
theorem C2_confirm_effects_witness :
    dupStripe.find? (fun i => i.id == "pi_2") = some dupIntent ∧
    ((confirmPurchase priceDB dupStripe 7 "pi_2" 51 9).1.purchases ≠
        priceDB.purchases →
      dupIntent.status = "succeeded") :=
  ⟨rfl, (C2_confirm_effects priceDB dupStripe 7 "pi_2" 51 9 dupIntent rfl).2.1⟩

end RiffRent
